import Mathlib

/-
Shallow embedding of the xvault-api gateway (src/main.py): an
OpenAI-compatible chat-completion endpoint wrapping a local Ollama
backend.  Pure request/response translation is embedded as Lean
functions; the HTTP handler pipeline (auth dependency, upstream call,
exception-to-response rendering) is embedded as explicit functions over
an upstream-outcome value, returning the rendered gateway response
together with the number of upstream calls made.
-/

namespace XVault

/- Message model (src/main.py, class Message): role and content strings. -/
structure Message where
  role : String
  content : String
deriving Repr, DecidableEq

/- The `stop` field of a request is `Optional[Union[str, List[str]]]`. -/
inductive StopParam where
  | str (s : String)
  | strList (l : List String)
deriving Repr, DecidableEq

/- src/main.py, class ChatCompletionRequest.  Floats (temperature, top_p,
penalties) are modelled as rationals; no claim computes with them, they
are only copied. -/
structure ChatCompletionRequest where
  model : String
  messages : List Message
  temperature : Rat := 7/10
  top_p : Rat := 1
  n : Int := 1
  max_tokens : Option Int := none
  stream : Bool := false
  stop : Option StopParam := none
  presence_penalty : Rat := 0
  frequency_penalty : Rat := 0
  user : Option String := none
deriving Repr, DecidableEq

/- The nested `options` dict built at src/main.py:141-151.  Absent dict
keys are `none`; a key that is set is `some`. -/
structure OllamaOptions where
  temperature : Rat
  top_p : Rat
  num_predict : Option Int
  stop : Option (List String)
deriving Repr, DecidableEq

/- The Ollama-format request dict built at src/main.py:137-151. -/
structure OllamaRequest where
  model : String
  messages : List Message
  stream : Bool
  options : OllamaOptions
deriving Repr, DecidableEq

/- Python truthiness of `request.max_tokens` (an `Optional[int]`):
`None` and `0` are falsy, every other integer is truthy. -/
def optIntTruthy : Option Int → Bool
  | none => false
  | some n => n != 0

/- Python truthiness of `request.stop`: `None`, the empty string and the
empty list are falsy. -/
def optStopTruthy : Option StopParam → Bool
  | none => false
  | some (.str s) => s != ""
  | some (.strList l) => !l.isEmpty

/- `request.stop if isinstance(request.stop, list) else [request.stop]`
(src/main.py:151). -/
def normalizeStop : StopParam → List String
  | .str s => [s]
  | .strList l => l

/- The request-translation block of create_chat_completion
(src/main.py:137-151): model and messages copied, stream forced False,
temperature/top_p copied into options, num_predict and stop set only
when the corresponding request field is truthy. -/
def translate_request (request : ChatCompletionRequest) : OllamaRequest :=
  { model := request.model
    messages := request.messages
    stream := false
    options :=
      { temperature := request.temperature
        top_p := request.top_p
        num_predict :=
          if optIntTruthy request.max_tokens then request.max_tokens else none
        stop :=
          match request.stop with
          | some sp => if optStopTruthy (some sp) then some (normalizeStop sp) else none
          | none => none } }

/- The parsed backend JSON as read by the code: only `message` is used
(`ollama_response.get("message", {})`), and within it `role` and
`content` with defaults (src/main.py:175,194-195).  Ollama replies also
carry a `model` field, which the code never reads. -/
structure OllamaMessage where
  role : Option String
  content : Option String
deriving Repr, DecidableEq

structure OllamaResponse where
  model : Option String
  message : Option OllamaMessage
deriving Repr, DecidableEq

/- `ollama_response.get("message", {})` with a missing key yields the
empty dict, whose own gets fall back to the defaults. -/
def emptyOllamaMessage : OllamaMessage := { role := none, content := none }

structure Usage where
  prompt_tokens : Nat
  completion_tokens : Nat
  total_tokens : Nat
deriving Repr, DecidableEq

structure ChatCompletionResponseChoice where
  index : Nat
  message : Message
  finish_reason : String
deriving Repr, DecidableEq

structure ChatCompletionResponse where
  id : String
  object : String := "chat.completion"
  created : Int
  model : String
  choices : List ChatCompletionResponseChoice
  usage : Usage
deriving Repr, DecidableEq

/- `"".join([msg.content for msg in request.messages])` (src/main.py:178). -/
def prompt_text (request : ChatCompletionRequest) : String :=
  String.join (request.messages.map (fun msg => msg.content))

/- The response-translation block of create_chat_completion
(src/main.py:171-205): completion id and created time are produced by
uuid4/time and passed in here as parameters. -/
def translate_response (request : ChatCompletionRequest)
    (ollama_response : OllamaResponse)
    (completion_id : String) (created_time : Int) : ChatCompletionResponse :=
  let assistant_message := ollama_response.message.getD emptyOllamaMessage
  let completion_text := assistant_message.content.getD ""
  let prompt_tokens := (prompt_text request).length / 4
  let completion_tokens := completion_text.length / 4
  let total_tokens := prompt_tokens + completion_tokens
  { id := completion_id
    object := "chat.completion"
    created := created_time
    model := request.model
    choices :=
      [{ index := 0
         message := { role := assistant_message.role.getD "assistant"
                      content := completion_text }
         finish_reason := "stop" }]
    usage :=
      { prompt_tokens := prompt_tokens
        completion_tokens := completion_tokens
        total_tokens := total_tokens } }

/- A FastAPI HTTPException as raised in src/main.py: status code, detail
string, and the optional WWW-Authenticate header value. -/
structure HTTPExc where
  status_code : Nat
  detail : String
  wwwAuthenticate : Option String
deriving Repr, DecidableEq

/- The JSON body of an error response.  FastAPI renders an HTTPException
as a detail body; the app's global exception handler
(src/main.py:114-120) renders an uncaught exception as the structured
error body with a message and a type. -/
inductive ErrorBody where
  | detailBody (detail : String)
  | structuredBody (message : String) (etype : String)
deriving Repr, DecidableEq

/- What the gateway sends back for one request: a 200 with a
ChatCompletionResponse, or an error status with a body and possibly a
WWW-Authenticate header. -/
inductive GatewayResponse where
  | ok (response : ChatCompletionResponse)
  | err (statusCode : Nat) (body : ErrorBody) (wwwAuthenticate : Option String)
deriving Repr, DecidableEq

/- FastAPI's rendering of a raised HTTPException: the status code with a
JSON body holding the detail. -/
def renderHTTPExc (e : HTTPExc) : GatewayResponse :=
  .err e.status_code (.detailBody e.detail) e.wwwAuthenticate

/- The app's global exception handler (src/main.py:114-120): any
exception not already an HTTPException becomes a 500 with the structured
error body and type "internal_server_error". -/
def global_exception_handler (exc : String) : Nat × ErrorBody :=
  (500, .structuredBody exc "internal_server_error")

/- Outcome of the single httpx call to the backend: either an HTTP reply
(status, body text, and the result of parsing the body as JSON) or a
raised transport exception (connection failure or timeout), carrying the
exception message. -/
inductive Upstream where
  | reply (statusCode : Nat) (text : String) (parsed : Except String OllamaResponse)
  | netError (msg : String)

/- verify_token (src/main.py:81-88): exact membership of the presented
credential in the configured token list; on failure an HTTPException 401
with detail "Invalid authentication token" and WWW-Authenticate: Bearer. -/
def verify_token (tokens : List String) (credential : String) :
    Except HTTPExc String :=
  if credential ∈ tokens then .ok credential
  else .error { status_code := 401
                detail := "Invalid authentication token"
                wwwAuthenticate := some "Bearer" }

/- The body of create_chat_completion after the auth dependency
(src/main.py:135-214): a non-200 upstream status raises an HTTPException
with that same status and the body text in the detail (src/main.py:161-166);
any other exception — transport errors from the httpx call, or a JSON
parse failure of the 200 body — is caught by the generic handler at
src/main.py:209-214 and re-raised as a 500 HTTPException. -/
def create_chat_completion_body (request : ChatCompletionRequest)
    (upstream : Upstream) (completion_id : String) (created_time : Int) :
    Except HTTPExc ChatCompletionResponse :=
  match upstream with
  | .netError msg =>
      .error { status_code := 500
               detail := "Error processing chat completion: " ++ msg
               wwwAuthenticate := none }
  | .reply statusCode text parsed =>
      if statusCode ≠ 200 then
        .error { status_code := statusCode
                 detail := "Ollama API error: " ++ text
                 wwwAuthenticate := none }
      else
        match parsed with
        | .error msg =>
            .error { status_code := 500
                     detail := "Error processing chat completion: " ++ msg
                     wwwAuthenticate := none }
        | .ok ollama_response =>
            .ok (translate_response request ollama_response completion_id created_time)

/- The whole POST /v1/chat/completions pipeline: the verify_token
dependency runs first, and only on success does the endpoint body run
and make its single upstream call.  The second component counts the
upstream calls attempted for the request. -/
def handle_chat_completion (tokens : List String) (credential : String)
    (request : ChatCompletionRequest) (upstream : Upstream)
    (completion_id : String) (created_time : Int) : GatewayResponse × Nat :=
  match verify_token tokens credential with
  | .error e => (renderHTTPExc e, 0)
  | .ok _ =>
      match create_chat_completion_body request upstream completion_id created_time with
      | .error e => (renderHTTPExc e, 1)
      | .ok response => (.ok response, 1)

/- Status code carried by a gateway response (200 on success). -/
def responseStatus : GatewayResponse → Nat
  | .ok _ => 200
  | .err s _ _ => s

/- Error body carried by a gateway response, when it is an error. -/
def responseBody : GatewayResponse → Option ErrorBody
  | .ok _ => none
  | .err _ b _ => some b

/- Whether an error body has the structured error/message/type shape. -/
def isStructured : ErrorBody → Bool
  | .structuredBody _ _ => true
  | .detailBody _ => false

/- Concrete sample values used by witnesses and counterexamples. -/
def demoRequest : ChatCompletionRequest :=
  { model := "llama2"
    messages := [{ role := "user", content := "Hi" }] }

def demoOllamaResponse : OllamaResponse :=
  { model := some "llama2"
    message := some { role := some "assistant", content := some "Hello!" } }

def demoUpstream : Upstream :=
  .reply 200 "" (.ok demoOllamaResponse)

/-- C1: a request whose bearer token is not an exact member of the
configured token set gets a 401 response with detail "Invalid
authentication token" and a WWW-Authenticate: Bearer header, and zero
upstream calls are made — the result is the same for every request body
and every upstream behaviour, so no translation result can reach the
wire. -/
theorem auth_rejects_unknown_token (tokens : List String) (credential : String)
    (request : ChatCompletionRequest) (upstream : Upstream)
    (completion_id : String) (created_time : Int)
    (h : credential ∉ tokens) :
    handle_chat_completion tokens credential request upstream completion_id created_time =
      (.err 401 (.detailBody "Invalid authentication token") (some "Bearer"), 0) := by
  simp [handle_chat_completion, verify_token, renderHTTPExc, h]

theorem auth_rejects_unknown_token_witness :
    "bad-token" ∉ ["test-token"] ∧
    handle_chat_completion ["test-token"] "bad-token" demoRequest demoUpstream "cid" 0 =
      (.err 401 (.detailBody "Invalid authentication token") (some "Bearer"), 0) :=
  ⟨by decide,
   auth_rejects_unknown_token ["test-token"] "bad-token" demoRequest demoUpstream "cid" 0
     (by decide)⟩

/-- C2: for every request and backend response the returned usage has
prompt_tokens = floor of a quarter of the length of the separator-free
concatenation of the input message contents, completion_tokens = floor
of a quarter of the completion content's length, and total_tokens their
sum. -/
theorem usage_token_accounting (request : ChatCompletionRequest)
    (ollama_response : OllamaResponse)
    (completion_id : String) (created_time : Int) :
    let response := translate_response request ollama_response completion_id created_time
    response.usage.prompt_tokens =
      (String.join (request.messages.map (fun m => m.content))).length / 4 ∧
    response.usage.completion_tokens =
      ((ollama_response.message.getD emptyOllamaMessage).content.getD "").length / 4 ∧
    response.usage.total_tokens =
      response.usage.prompt_tokens + response.usage.completion_tokens := by
  refine ⟨rfl, rfl, rfl⟩

/-- C7: the translated backend request's stream field is false for every
request, whatever the input stream flag was. -/
theorem translate_stream_false (request : ChatCompletionRequest) :
    (translate_request request).stream = false := rfl

/-- C8: the model of the returned response equals the model of the
original request, for every backend response — in particular also when
the backend response reports a different or defaulted model. -/
theorem response_model_echoed (request : ChatCompletionRequest)
    (ollama_response : OllamaResponse)
    (completion_id : String) (created_time : Int) :
    (translate_response request ollama_response completion_id created_time).model =
      request.model := rfl

/-- C9: every successful response the gateway pipeline returns has
exactly one choice, and its finish_reason is the constant "stop",
whatever the backend signalled. -/
theorem choices_singleton_finish_stop (tokens : List String) (credential : String)
    (request : ChatCompletionRequest) (upstream : Upstream)
    (completion_id : String) (created_time : Int)
    (response : ChatCompletionResponse)
    (h : (handle_chat_completion tokens credential request upstream completion_id created_time).1 =
      .ok response) :
    response.choices.length = 1 ∧
    ∀ c ∈ response.choices, c.finish_reason = "stop" := by
  unfold handle_chat_completion at h
  cases hv : verify_token tokens credential with
  | error e => rw [hv] at h; simp [renderHTTPExc] at h
  | ok _ =>
      rw [hv] at h
      cases hb : create_chat_completion_body request upstream completion_id created_time with
      | error e => rw [hb] at h; simp [renderHTTPExc] at h
      | ok r =>
          rw [hb] at h
          simp at h
          subst h
          unfold create_chat_completion_body at hb
          cases upstream with
          | netError msg => simp at hb
          | reply statusCode text parsed =>
              by_cases hs : statusCode = 200
              · subst hs
                cases parsed with
                | error msg => simp at hb
                | ok ollama_response =>
                    simp at hb
                    subst hb
                    refine ⟨rfl, ?_⟩
                    intro c hc
                    simp [translate_response] at hc
                    subst hc
                    rfl
              · simp [hs] at hb

theorem choices_singleton_finish_stop_witness :
    (handle_chat_completion ["test-token"] "test-token" demoRequest demoUpstream "cid" 0).1 =
      .ok (translate_response demoRequest demoOllamaResponse "cid" 0) ∧
    (translate_response demoRequest demoOllamaResponse "cid" 0).choices.length = 1 ∧
    ∀ c ∈ (translate_response demoRequest demoOllamaResponse "cid" 0).choices,
      c.finish_reason = "stop" :=
  ⟨rfl,
   choices_singleton_finish_stop ["test-token"] "test-token" demoRequest demoUpstream
     "cid" 0 (translate_response demoRequest demoOllamaResponse "cid" 0) rfl⟩

/-- C10: a stop field that is present but empty — the empty string or
the empty list — is falsy in the translation guard, so the translated
options carry no stop key, exactly as when stop is absent. -/
theorem empty_stop_omitted (request : ChatCompletionRequest)
    (h : request.stop = some (.str "") ∨ request.stop = some (.strList [])) :
    (translate_request request).options.stop = none ∧
    (translate_request request).options.stop =
      (translate_request { request with stop := none }).options.stop := by
  rcases h with h | h <;>
    simp [translate_request, optStopTruthy, h]

theorem empty_stop_omitted_witness :
    ({ demoRequest with stop := some (.str "") } : ChatCompletionRequest).stop =
      some (.str "") ∧
    (translate_request { demoRequest with stop := some (.str "") }).options.stop = none :=
  ⟨rfl,
   (empty_stop_omitted { demoRequest with stop := some (.str "") } (Or.inl rfl)).1⟩

/-- C3 counterexample: with max_tokens present and equal to 0 the guard
`if request.max_tokens:` is falsy, so the translated options carry no
num_predict key, contradicting the claim that a present max_tokens is
always copied into num_predict. -/
theorem num_predict_counterexample :
    ({ demoRequest with max_tokens := some 0 } : ChatCompletionRequest).max_tokens =
      some 0 ∧
    (translate_request { demoRequest with max_tokens := some 0 }).options.num_predict =
      none := ⟨rfl, rfl⟩

/-- C3 amended: a present and NONZERO max_tokens is copied into
num_predict; an absent or zero max_tokens leaves the num_predict key out
entirely. -/
theorem num_predict_mapping (request : ChatCompletionRequest) :
    (∀ n : Int, request.max_tokens = some n → n ≠ 0 →
      (translate_request request).options.num_predict = some n) ∧
    ((request.max_tokens = none ∨ request.max_tokens = some 0) →
      (translate_request request).options.num_predict = none) := by
  constructor
  · intro n hn hnz
    simp [translate_request, optIntTruthy, hn, hnz]
  · rintro (h | h) <;> simp [translate_request, optIntTruthy, h]

theorem num_predict_mapping_witness :
    (translate_request { demoRequest with max_tokens := some 5 }).options.num_predict =
      some 5 ∧
    (translate_request demoRequest).options.num_predict = none :=
  ⟨(num_predict_mapping { demoRequest with max_tokens := some 5 }).1 5 rfl (by decide),
   (num_predict_mapping demoRequest).2 (Or.inl rfl)⟩

/-- C4 counterexample: with stop present as the empty single string, the
guard `if request.stop:` is falsy, so the translated options carry no
stop key rather than the one-element list the claim demands. -/
theorem stop_counterexample :
    ({ demoRequest with stop := some (.str "") } : ChatCompletionRequest).stop =
      some (.str "") ∧
    (translate_request { demoRequest with stop := some (.str "") }).options.stop ≠
      some [""] ∧
    (translate_request { demoRequest with stop := some (.str "") }).options.stop =
      none := ⟨rfl, by decide, rfl⟩

/-- C4 amended: a present NONEMPTY single string becomes a one-element
stop list, a present NONEMPTY list is passed through unchanged, and an
absent or empty stop omits the key. -/
theorem stop_mapping (request : ChatCompletionRequest) :
    (∀ s : String, request.stop = some (.str s) → s ≠ "" →
      (translate_request request).options.stop = some [s]) ∧
    (∀ l : List String, request.stop = some (.strList l) → l ≠ [] →
      (translate_request request).options.stop = some l) ∧
    ((request.stop = none ∨ request.stop = some (.str "") ∨
        request.stop = some (.strList [])) →
      (translate_request request).options.stop = none) := by
  refine ⟨?_, ?_, ?_⟩
  · intro s hs hne
    simp [translate_request, optStopTruthy, normalizeStop, hs, hne]
  · intro l hl hne
    simp [translate_request, optStopTruthy, normalizeStop, hl, hne]
  · rintro (h | h | h) <;> simp [translate_request, optStopTruthy, h]

theorem stop_mapping_witness :
    (translate_request { demoRequest with stop := some (.str "END") }).options.stop =
      some ["END"] ∧
    (translate_request { demoRequest with stop := some (.strList ["a", "b"]) }).options.stop =
      some ["a", "b"] ∧
    (translate_request demoRequest).options.stop = none :=
  ⟨(stop_mapping { demoRequest with stop := some (.str "END") }).1 "END" rfl (by decide),
   (stop_mapping { demoRequest with stop := some (.strList ["a", "b"]) }).2.1
     ["a", "b"] rfl (by decide),
   (stop_mapping demoRequest).2.2 (Or.inl rfl)⟩

/-- C5 counterexample: a connection failure on the upstream call is
caught by the endpoint's generic exception handler and surfaces as a
plain 500, not as a 502/504-class error distinguishing upstream
unreachability. -/
theorem upstream_unreachable_counterexample :
    responseStatus
      (handle_chat_completion ["test-token"] "test-token" demoRequest
        (.netError "connection refused") "cid" 0).1 = 500 ∧
    responseStatus
      (handle_chat_completion ["test-token"] "test-token" demoRequest
        (.netError "connection refused") "cid" 0).1 ≠ 502 ∧
    responseStatus
      (handle_chat_completion ["test-token"] "test-token" demoRequest
        (.netError "connection refused") "cid" 0).1 ≠ 504 :=
  ⟨rfl, by decide, by decide⟩

/-- C5 amended: a connection failure or timeout is returned as a generic
500 whose detail prefixes the exception message with "Error processing
chat completion: " — it is NOT mapped to a 502/504 class and is not
distinguished from other internal faults; a non-200 upstream reply is
propagated with the backend's own status code and the backend body text
in the detail, prefixed with "Ollama API error: ". -/
theorem upstream_failure_mapping (tokens : List String) (credential : String)
    (request : ChatCompletionRequest)
    (completion_id : String) (created_time : Int)
    (hcred : credential ∈ tokens) :
    (∀ msg : String,
      (handle_chat_completion tokens credential request (.netError msg)
          completion_id created_time).1 =
        .err 500 (.detailBody ("Error processing chat completion: " ++ msg)) none) ∧
    (∀ (statusCode : Nat) (text : String) (parsed : Except String OllamaResponse),
      statusCode ≠ 200 →
      (handle_chat_completion tokens credential request (.reply statusCode text parsed)
          completion_id created_time).1 =
        .err statusCode (.detailBody ("Ollama API error: " ++ text)) none) := by
  constructor
  · intro msg
    simp [handle_chat_completion, verify_token, hcred,
      create_chat_completion_body, renderHTTPExc]
  · intro statusCode text parsed hs
    simp [handle_chat_completion, verify_token, hcred,
      create_chat_completion_body, renderHTTPExc, hs]

theorem upstream_failure_mapping_witness :
    "test-token" ∈ ["test-token"] ∧
    (handle_chat_completion ["test-token"] "test-token" demoRequest
        (.netError "timeout") "cid" 0).1 =
      .err 500 (.detailBody ("Error processing chat completion: " ++ "timeout")) none ∧
    (handle_chat_completion ["test-token"] "test-token" demoRequest
        (.reply 404 "model not found" (.error "unparsed")) "cid" 0).1 =
      .err 404 (.detailBody ("Ollama API error: " ++ "model not found")) none :=
  ⟨by decide,
   (upstream_failure_mapping ["test-token"] "test-token" demoRequest "cid" 0
      (by decide)).1 "timeout",
   (upstream_failure_mapping ["test-token"] "test-token" demoRequest "cid" 0
      (by decide)).2 404 "model not found" (.error "unparsed") (by decide)⟩

/-- C6 counterexample: the 401 unauthorized response is rendered from an
HTTPException, so its body is the FastAPI default detail shape, not the
structured error/message/type shape the claim asserts for every error
response. -/
theorem error_body_counterexample :
    (responseBody
        (handle_chat_completion ["test-token"] "wrong" demoRequest demoUpstream
          "cid" 0).1).map isStructured = some false := by decide

/-- C6 amended: only the global exception handler for uncaught faults
produces the structured error/message/type body (with type
"internal_server_error"); every error response of the chat-completion
pipeline itself — the 401, propagated upstream errors, and the
endpoint's own 500s — is an HTTPException rendered with the FastAPI
default detail-shaped body instead. -/
theorem error_body_shapes :
    (∀ msg : String,
      global_exception_handler msg = (500, .structuredBody msg "internal_server_error")) ∧
    (∀ (tokens : List String) (credential : String)
        (request : ChatCompletionRequest) (upstream : Upstream)
        (completion_id : String) (created_time : Int)
        (s : Nat) (b : ErrorBody) (w : Option String),
      (handle_chat_completion tokens credential request upstream
          completion_id created_time).1 = .err s b w →
      ∃ d, b = .detailBody d) := by
  constructor
  · intro msg; rfl
  · intro tokens credential request upstream completion_id created_time s b w h
    unfold handle_chat_completion at h
    cases hv : verify_token tokens credential with
    | error e =>
        rw [hv] at h
        simp [renderHTTPExc] at h
        exact ⟨e.detail, h.2.1.symm⟩
    | ok _ =>
        rw [hv] at h
        cases hb : create_chat_completion_body request upstream completion_id created_time with
        | error e =>
            rw [hb] at h
            simp [renderHTTPExc] at h
            exact ⟨e.detail, h.2.1.symm⟩
        | ok r => rw [hb] at h; simp at h

theorem error_body_shapes_witness :
    global_exception_handler "boom" = (500, .structuredBody "boom" "internal_server_error") ∧
    ∃ d, (ErrorBody.detailBody "Invalid authentication token") = .detailBody d :=
  ⟨error_body_shapes.1 "boom",
   error_body_shapes.2 ["test-token"] "wrong" demoRequest demoUpstream "cid" 0
     401 (.detailBody "Invalid authentication token") (some "Bearer") rfl⟩

end XVault
